import Mathlib

/-!
Shallow embedding of the fut-duel-backend server core (src/index.js).

The server keeps all state in process-wide mutable structures: a matchmaking
queue, a `games` map (gameId -> game object), and four identity maps
(socketId <-> odId, socketId -> gameId, odId -> gameId).  We model JavaScript
`Map`s and plain objects used as records as association lists with
set/delete/lookup following JS semantics (set replaces an existing key,
delete removes it).  Every inbound socket event handler becomes a pure
function `ServerState -> inputs -> ServerState × List Event`, where `Event`
records the `emit` calls the handler performs (target socket id + payload).
Emits that the source guards with `io.sockets.sockets.get(sid)` keep that
guard, modelled as membership of `sid` in the live-socket set `sockets`;
unguarded emits (`socket.emit`, `io.to(...)` without a liveness check) are
recorded unconditionally, mirroring the source.

The `setTimeout` disconnect-grace timer is modelled as data stored in the
game (`disconnectTimer`): arming stores the captured values (player index and
the two odIds the callback closes over), `clearTimeout` resets the field to
`none`, and the elapse of the grace period is the separate transition
`fireDisconnectTimer`, which can only run while the field is still armed and
re-reads the *current* `connected` flag exactly as the source callback does.
`uuidv4()` game ids are modelled by a fresh-name counter (`nextGameId`):
the only property the source relies on is freshness.
-/

/-- JS `Map.get` / object property read on an association list. -/
def mapGet {α β : Type} [DecidableEq α] : List (α × β) → α → Option β
  | [], _ => none
  | (k, v) :: rest, k' => if k = k' then some v else mapGet rest k'

/-- JS `Map.set` / object property write: replaces the binding in place or
appends a new one. -/
def mapSet {α β : Type} [DecidableEq α] : List (α × β) → α → β → List (α × β)
  | [], k, v => [(k, v)]
  | (k', v') :: rest, k, v =>
    if k' = k then (k, v) :: rest else (k', v') :: mapSet rest k v

/-- JS `Map.delete`: removes the binding for the key. -/
def mapDel {α β : Type} [DecidableEq α] : List (α × β) → α → List (α × β)
  | [], _ => []
  | (k', v') :: rest, k =>
    if k' = k then mapDel rest k else (k', v') :: mapDel rest k

/-- RoundInfo entries of the fixed cyclic round table (`getRoundInfo`). -/
structure RoundInfo where
  round : Nat
  stat : String
  isGKRound : Bool
deriving Repr, DecidableEq

/-- The fixed 7-entry round table from `getRoundInfo` (round 4 is the GK round). -/
def roundStats : List RoundInfo :=
  [⟨1, "pace", false⟩,
   ⟨2, "shooting", false⟩,
   ⟨3, "passing", false⟩,
   ⟨4, "gk_diving", true⟩,
   ⟨5, "dribbling", false⟩,
   ⟨6, "defending", false⟩,
   ⟨7, "physical", false⟩]

/-- `getRoundInfo(roundNumber)`: cyclic lookup at `(roundNumber - 1) % 7`.
Only ever called with `roundNumber ≥ 1`; the `getD` default is unreachable. -/
def getRoundInfo (roundNumber : Nat) : RoundInfo :=
  (roundStats[(roundNumber - 1) % roundStats.length]?).getD ⟨1, "pace", false⟩

/-- `createInitialRound()`. -/
def createInitialRound : RoundInfo := getRoundInfo 1

/-- One entry of the matchmaking `queue`. -/
structure QueueEntry where
  socketId : String
  odId : String
  username : String
deriving Repr, DecidableEq

/-- A recorded move (`game.moves[odId]`), as stored by `submit-move`. -/
structure MoveInfo where
  odId : String
  cardId : Int
  statValue : Int
  cardData : Option String
deriving Repr, DecidableEq

/-- One of the two player slots of a game. -/
structure Player where
  odId : String
  username : String
  socketId : String
  accepted : Bool
  score : Nat
  rp : Int
  connected : Bool
deriving Repr, DecidableEq

/-- The data the `setTimeout` disconnect callback closes over: the player
index `idx`, `opponent.odId` (the winner if the timer completes; the source
guards with `opponent ? opponent.odId : null`, and with exactly two slots the
opponent always exists) and `player.odId` (the loser).  The `connected` flag
is *not* captured: the callback re-reads it from the game at fire time. -/
structure TimerInfo where
  idx : Nat
  winnerOdId : Option String
  loserOdId : String
deriving Repr, DecidableEq

/-- The per-session state (`game` object). -/
structure Game where
  id : String
  player0 : Player
  player1 : Player
  scores : List (String × Nat)
  usedCards : List Int
  currentRound : RoundInfo
  roundNumber : Nat
  maxRounds : Nat
  moves : List (String × MoveInfo)
  isStarted : Bool
  isFinished : Bool
  disconnectTimer : Option TimerInfo
  disconnectedPlayerOdId : Option String
deriving Repr, DecidableEq

/-- `game.players[i]` for the indexes (0 or 1) actually produced by
`getPlayerIndex`. -/
def Game.playerAt (g : Game) (i : Nat) : Player :=
  if i = 0 then g.player0 else g.player1

/-- In-place update of `game.players[i]`. -/
def Game.setPlayer (g : Game) (i : Nat) (p : Player) : Game :=
  if i = 0 then { g with player0 := p } else { g with player1 := p }

/-- `getOpponentIndex(playerIndex)`. -/
def getOpponentIndex (i : Nat) : Nat :=
  if i = 0 then 1 else 0

/-- `getPlayerIndex(game, odId)`: `findIndex` over the two slots
(`-1` becomes `none`). -/
def getPlayerIndex (g : Game) (odId : String) : Option Nat :=
  if g.player0.odId = odId then some 0
  else if g.player1.odId = odId then some 1
  else none

/-- `getOpponentOdId(game, odId)`. -/
def getOpponentOdId (g : Game) (odId : String) : Option String :=
  match getPlayerIndex g odId with
  | none => none
  | some idx => some (g.playerAt (getOpponentIndex idx)).odId

/-- Ranking-point constants. -/
def RP_WIN : Int := 20

def RP_LOSS : Int := -15

def RP_FORFEIT_LOSS : Int := -25

def RP_OPP_DISCONNECT_WIN : Int := 25

def DISCONNECT_GRACE_MS : Nat := 30000

def MAX_ROUNDS : Nat := 5

/-- `calculateRpChange(winnerOdId, loserOdId, reason)`; the result is the JS
object `{ [winner]: delta, [loser]: delta }`. -/
def calculateRpChange (winnerOdId loserOdId : Option String) (reason : String) :
    List (String × Int) :=
  match winnerOdId, loserOdId with
  | some w, some l =>
    if reason = "forfeit" then
      mapSet (mapSet [] w RP_WIN) l RP_FORFEIT_LOSS
    else if reason = "opponent-disconnected" then
      mapSet (mapSet [] w RP_OPP_DISCONNECT_WIN) l RP_FORFEIT_LOSS
    else
      mapSet (mapSet [] w RP_WIN) l RP_LOSS
  | _, _ => []

/-- `computeScoresFromGame(game)`. -/
def computeScoresFromGame (g : Game) : List (String × Nat) :=
  mapSet (mapSet [] g.player0.odId g.player0.score) g.player1.odId g.player1.score

/-- Payload of the `round-completed` broadcast. -/
structure RoundCompletedPayload where
  round : Nat
  stat : String
  isGKRound : Bool
  moves : List (String × MoveInfo)
  roundWinner : Option String
  damage : Int
  scores : List (String × Nat)
  isGameOver : Bool
  finalWinner : Option String
  nextRound : Option RoundInfo
deriving Repr, DecidableEq

/-- Payload of the `game-ended` broadcast. -/
structure GameEndedPayload where
  gameId : String
  reason : String
  winner : String
  loser : String
  scores : List (String × Nat)
  rpChange : List (String × Int)
  disconnectedPlayer : Option (String × String)
deriving Repr, DecidableEq

/-- One `emit` call: the target socket id plus the event name and payload. -/
inductive Event where
  | queueJoined (sid : String) (position queueSize : Nat)
  | queueLeft (sid : String)
  | matchFound (sid gameId oppOdId oppUsername : String) (isHost : Bool)
  | gameStarted (sid gameId : String) (currentRound : RoundInfo)
  | gameState (sid : String) (currentRound : RoundInfo)
      (scores : List (String × Nat)) (usedCards : List Int)
  | gameJoined (sid gameId odId : String) (playerIndex : Nat)
  | moveReceived (sid : String) (cardId : Int)
  | opponentMoved (sid : String)
  | opponentDisconnected (sid username : String)
  | roundCompleted (sid : String) (p : RoundCompletedPayload)
  | gameEnded (sid : String) (p : GameEndedPayload)
  | gameError (sid code : String)
  | moveError (sid code : String)
deriving Repr, DecidableEq

/-- The process-wide server state.  `sockets` is the set of live socket ids
(`io.sockets.sockets`); `nextGameId` is the fresh-name supply standing in for
`uuidv4()`. -/
structure ServerState where
  sockets : List String
  queue : List QueueEntry
  games : List (String × Game)
  socketToUser : List (String × String)
  userToSocket : List (String × String)
  socketToGameId : List (String × String)
  userToGameId : List (String × String)
  nextGameId : Nat
deriving Repr, DecidableEq

/-- A `players.forEach` emit loop guarded by
`p.socketId && io.sockets.sockets.get(p.socketId)`. -/
def broadcast (sockets : List String) (g : Game) (mk : String → Event) :
    List Event :=
  (if g.player0.socketId ∈ sockets then [mk g.player0.socketId] else []) ++
  (if g.player1.socketId ∈ sockets then [mk g.player1.socketId] else [])

/-- `emitGameState(game)`. -/
def emitGameStateEvents (sockets : List String) (g : Game) : List Event :=
  broadcast sockets g
    (fun sid => Event.gameState sid g.currentRound (computeScoresFromGame g) g.usedCards)

/-- The destructured options argument of `finishGame`; absent properties are
`none`. -/
structure FinishArgs where
  reason : String
  winnerOdId : Option String
  loserOdId : Option String
  disconnectedPlayerOdId : Option String
deriving Repr, DecidableEq

/-- The part of `finishGame(game, opts)` that acts on the game object itself:
the `isFinished` latch, winner/loser defaulting, ranking-point computation,
the `game-ended` broadcast and the timer cancellation.  The helper-map
cleanup at the end of the source function lives in `finishGameS`. -/
def finishGameCore (sockets : List String) (g : Game) (args : FinishArgs) :
    Game × List Event :=
  if g.isFinished then (g, [])
  else
    let g1 := { g with isFinished := true }
    let scores := computeScoresFromGame g1
    let winnerOdId :=
      if args.winnerOdId = none ∧ args.reason = "normal" then
        if g1.player0.score > g1.player1.score then some g1.player0.odId
        else if g1.player1.score > g1.player0.score then some g1.player1.odId
        else none
      else args.winnerOdId
    let loserOdId :=
      match args.loserOdId, winnerOdId with
      | none, some w => [g1.player0.odId, g1.player1.odId].find? (fun i => i != w)
      | l, _ => l
    let rpChange := calculateRpChange winnerOdId loserOdId args.reason
    let reasonTag :=
      if args.reason = "opponent-disconnected" then "opponent-disconnected"
      else if args.reason = "forfeit" then "forfeit"
      else "forfeit"
    let disconnectedPlayer :=
      match args.disconnectedPlayerOdId with
      | none => none
      | some dId =>
        if g1.player0.odId = dId then some (g1.player0.odId, g1.player0.username)
        else if g1.player1.odId = dId then some (g1.player1.odId, g1.player1.username)
        else none
    let payload : GameEndedPayload :=
      { gameId := g1.id
        reason := reasonTag
        winner := winnerOdId.getD ""
        loser := loserOdId.getD ""
        scores := scores
        rpChange := rpChange
        disconnectedPlayer := disconnectedPlayer }
    let evs := broadcast sockets g1 (fun sid => Event.gameEnded sid payload)
    let g2 := { g1 with disconnectTimer := none }
    (g2, evs)

/-- `finishGame` at the server level: runs `finishGameCore` on the game found
under `gameId` and then performs the helper-map cleanup.  Every call site of
the source `finishGame` passes a game object that is stored in the `games`
map under its id (games are registered at pairing and never deleted), so
looking the game up by id is equivalent to passing the object. -/
def finishGameS (st : ServerState) (gameId : String) (args : FinishArgs) :
    ServerState × List Event :=
  match mapGet st.games gameId with
  | none => (st, [])
  | some g =>
    if g.isFinished then (st, [])
    else
      let r := finishGameCore st.sockets g args
      let g2 := r.1
      ({ st with
          games := mapSet st.games gameId g2
          socketToGameId :=
            mapDel (mapDel st.socketToGameId g2.player0.socketId) g2.player1.socketId
          userToGameId :=
            mapDel (mapDel st.userToGameId g2.player0.odId) g2.player1.odId },
        r.2)

/-- `resolveRoundIfReady(game)` at the server level.  The source takes the
game object; as with `finishGame` the object is always the one registered
under its id in `games`, so we look it up.  Mirrors the source statement by
statement: round-winner comparison, +1 score, `usedCards` update, game-over
check (`roundNumber >= maxRounds`), round advance *before* the payload is
constructed, `round-completed` broadcast, clearing of `moves`, and either
`finishGame(..., reason 'normal')` or `emitGameState`. -/
def resolveRoundIfReadyS (st : ServerState) (gameId : String) :
    ServerState × List Event :=
  match mapGet st.games gameId with
  | none => (st, [])
  | some g =>
    if g.isFinished then (st, [])
    else
      match mapGet g.moves g.player0.odId, mapGet g.moves g.player1.odId with
      | some moveA, some moveB =>
        let roundWinnerOdId : Option String :=
          if moveA.statValue = moveB.statValue then none
          else if moveA.statValue > moveB.statValue then some g.player0.odId
          else some g.player1.odId
        let g1 :=
          match roundWinnerOdId with
          | none => g
          | some w =>
            match getPlayerIndex g w with
            | none => g
            | some wi =>
              let p := g.playerAt wi
              let gU := g.setPlayer wi { p with score := p.score + 1 }
              { gU with scores := mapSet gU.scores w (p.score + 1) }
        let uc0 :=
          if g1.usedCards.contains moveA.cardId then g1.usedCards
          else g1.usedCards ++ [moveA.cardId]
        let uc1 :=
          if uc0.contains moveB.cardId then uc0 else uc0 ++ [moveB.cardId]
        let g2 := { g1 with usedCards := uc1 }
        let scores := computeScoresFromGame g2
        let isGameOver : Bool := g2.roundNumber ≥ g2.maxRounds
        let finalWinner : Option String :=
          if isGameOver then
            if g2.player0.score > g2.player1.score then some g2.player0.odId
            else if g2.player1.score > g2.player0.score then some g2.player1.odId
            else none
          else none
        let g3 :=
          if isGameOver then g2
          else { g2 with
                  roundNumber := g2.roundNumber + 1
                  currentRound := getRoundInfo (g2.roundNumber + 1) }
        let nextRound : Option RoundInfo :=
          if isGameOver then none else some g3.currentRound
        let roundPayload : RoundCompletedPayload :=
          { round := g3.currentRound.round
            stat := g3.currentRound.stat
            isGKRound := g3.currentRound.isGKRound
            moves := mapSet (mapSet [] g.player0.odId moveA) g.player1.odId moveB
            roundWinner := roundWinnerOdId
            damage := 0
            scores := scores
            isGameOver := isGameOver
            finalWinner := finalWinner
            nextRound := nextRound }
        let evs := broadcast st.sockets g3 (fun sid => Event.roundCompleted sid roundPayload)
        let g4 := { g3 with moves := [] }
        let st1 := { st with games := mapSet st.games gameId g4 }
        if isGameOver then
          let r := finishGameS st1 gameId
            { reason := "normal", winnerOdId := finalWinner
              loserOdId := none, disconnectedPlayerOdId := none }
          (r.1, evs ++ r.2)
        else
          (st1, evs ++ emitGameStateEvents st.sockets g4)
      | _, _ => (st, [])

/-- `maybeStartGame(game)`. -/
def maybeStartGame (sockets : List String) (g : Game) : Game × List Event :=
  if g.isStarted ∨ g.isFinished then (g, [])
  else if g.player0.accepted ∧ g.player1.accepted then
    let g1 := { g with isStarted := true }
    (g1,
      broadcast sockets g1 (fun sid => Event.gameStarted sid g1.id g1.currentRound) ++
      emitGameStateEvents sockets g1)
  else (g, [])

/-- `removeFromQueueBySocket(socketId)`: removes the first queue entry with
that socket id (`findIndex` + `splice(idx, 1)`). -/
def removeFromQueueBySocket : List QueueEntry → String → List QueueEntry
  | [], _ => []
  | e :: rest, sid =>
    if e.socketId = sid then rest else e :: removeFromQueueBySocket rest sid

/-- The game object built for a fresh pair inside `tryMatchPlayers`. -/
def newGame (gameId : String) (e1 e2 : QueueEntry) : Game :=
  { id := gameId
    player0 :=
      { odId := e1.odId, username := e1.username, socketId := e1.socketId
        accepted := false, score := 0, rp := 0, connected := true }
    player1 :=
      { odId := e2.odId, username := e2.username, socketId := e2.socketId
        accepted := false, score := 0, rp := 0, connected := true }
    scores := mapSet (mapSet [] e1.odId 0) e2.odId 0
    usedCards := []
    currentRound := createInitialRound
    roundNumber := 1
    maxRounds := MAX_ROUNDS
    moves := []
    isStarted := false
    isFinished := false
    disconnectTimer := none
    disconnectedPlayerOdId := none }

/-- The `while (queue.length >= 2)` loop of `tryMatchPlayers`, recursing on
the queue contents (the two `shift()`s).  The first dequeued player is host.
`match-found` is emitted with `io.to(...)` without a liveness guard, so the
events are recorded unconditionally. -/
def tryMatchAux : List QueueEntry → ServerState → ServerState × List Event
  | e1 :: e2 :: rest, st =>
    let gameId := toString st.nextGameId
    let g := newGame gameId e1 e2
    let st1 := { st with
      nextGameId := st.nextGameId + 1
      games := mapSet st.games gameId g
      socketToGameId :=
        mapSet (mapSet st.socketToGameId e1.socketId gameId) e2.socketId gameId
      userToGameId :=
        mapSet (mapSet st.userToGameId e1.odId gameId) e2.odId gameId }
    let evs :=
      [Event.matchFound e1.socketId gameId e2.odId e2.username true,
       Event.matchFound e2.socketId gameId e1.odId e1.username false]
    let r := tryMatchAux rest st1
    (r.1, evs ++ r.2)
  | q, st => ({ st with queue := q }, [])

/-- `tryMatchPlayers()`. -/
def tryMatchPlayers (st : ServerState) : ServerState × List Event :=
  tryMatchAux st.queue st

/-- The `join-queue` handler.  `odId`/`username` are `none` when the payload
field is missing or falsy. -/
def handleJoinQueue (st : ServerState) (socketId : String)
    (odId username : Option String) : ServerState × List Event :=
  match odId, username with
  | some oid, some uname =>
    let st1 := { st with
      socketToUser := mapSet st.socketToUser socketId oid
      userToSocket := mapSet st.userToSocket oid socketId }
    let q2 := removeFromQueueBySocket st1.queue socketId ++ [⟨socketId, oid, uname⟩]
    let position := (q2.findIdx (fun e => e.socketId == socketId)) + 1
    let queueSize := q2.length
    let r := tryMatchPlayers { st1 with queue := q2 }
    (r.1, [Event.queueJoined socketId position queueSize] ++ r.2)
  | _, _ => (st, [Event.gameError socketId "INVALID_QUEUE_PAYLOAD"])

/-- The `leave-queue` handler. -/
def handleLeaveQueue (st : ServerState) (socketId : String) :
    ServerState × List Event :=
  ({ st with queue := removeFromQueueBySocket st.queue socketId },
    [Event.queueLeft socketId])

/-- The `player-accepted` handler. -/
def handlePlayerAccepted (st : ServerState) (socketId : String)
    (gameId : Option String) : ServerState × List Event :=
  match gameId with
  | none => (st, [])
  | some gid =>
    match mapGet st.games gid with
    | none => (st, [Event.gameError socketId "GAME_NOT_FOUND"])
    | some g =>
      if g.isFinished then (st, [Event.gameError socketId "GAME_NOT_FOUND"])
      else
        match mapGet st.socketToUser socketId with
        | none => (st, [])
        | some oid =>
          match getPlayerIndex g oid with
          | none => (st, [])
          | some idx =>
            let g1 := g.setPlayer idx { g.playerAt idx with accepted := true }
            let r := maybeStartGame st.sockets g1
            ({ st with games := mapSet st.games gid r.1 }, r.2)

/-- The `join-game` handler.  Note the source binds all four identity maps
*before* checking that `odId` is a member of the game. -/
def handleJoinGame (st : ServerState) (socketId : String)
    (gameId odId username : Option String) : ServerState × List Event :=
  match gameId, odId with
  | some gid, some oid =>
    match mapGet st.games gid with
    | none => (st, [Event.gameError socketId "GAME_NOT_FOUND"])
    | some g =>
      if g.isFinished then (st, [Event.gameError socketId "GAME_NOT_FOUND"])
      else
        let st1 := { st with
          socketToUser := mapSet st.socketToUser socketId oid
          userToSocket := mapSet st.userToSocket oid socketId
          socketToGameId := mapSet st.socketToGameId socketId gid
          userToGameId := mapSet st.userToGameId oid gid }
        match getPlayerIndex g oid with
        | none => (st1, [Event.gameError socketId "NOT_IN_GAME"])
        | some idx =>
          let p := g.playerAt idx
          let p1 := match username with
            | some u => { p with username := u }
            | none => p
          let p2 := { p1 with socketId := socketId, connected := true }
          let g1 := g.setPlayer idx p2
          let st2 := { st1 with games := mapSet st1.games gid g1 }
          (st2,
            [Event.gameJoined socketId gid oid idx] ++
            (if g1.isStarted ∧ ¬ g1.isFinished
             then emitGameStateEvents st2.sockets g1 else []))
  | _, _ => (st, [Event.gameError socketId "INVALID_JOIN_GAME_PAYLOAD"])

/-- The `leave-game` (forfeit) handler. -/
def handleLeaveGame (st : ServerState) (socketId : String)
    (gameId : Option String) : ServerState × List Event :=
  match gameId with
  | none => (st, [])
  | some gid =>
    match mapGet st.games gid with
    | none => (st, [])
    | some g =>
      if g.isFinished then (st, [])
      else
        match mapGet st.socketToUser socketId with
        | none => (st, [])
        | some oid =>
          match getPlayerIndex g oid with
          | none => (st, [])
          | some _ =>
            finishGameS st gid
              { reason := "forfeit", winnerOdId := getOpponentOdId g oid
                loserOdId := some oid, disconnectedPlayerOdId := none }

/-- The destructured `submit-move` payload; `none` marks a missing or
(for the strings) falsy field, matching the
`!gameId || !odId || typeof cardId !== 'number' || typeof statValue !== 'number'`
validation. -/
structure SubmitMoveData where
  gameId : Option String
  odId : Option String
  cardId : Option Int
  statValue : Option Int
  cardData : Option String
deriving Repr, DecidableEq

/-- The `submit-move` handler. -/
def handleSubmitMove (st : ServerState) (socketId : String)
    (d : SubmitMoveData) : ServerState × List Event :=
  match d.gameId, d.odId, d.cardId, d.statValue with
  | some gid, some oid, some cardId, some statValue =>
    match mapGet st.games gid with
    | none => (st, [Event.moveError socketId "GAME_NOT_AVAILABLE"])
    | some g =>
      if g.isFinished ∨ ¬ g.isStarted then
        (st, [Event.moveError socketId "GAME_NOT_AVAILABLE"])
      else
        match getPlayerIndex g oid with
        | none => (st, [Event.moveError socketId "PLAYER_NOT_IN_GAME"])
        | some _ =>
          match mapGet g.moves oid with
          | some _ => (st, [Event.moveError socketId "MOVE_ALREADY_SUBMITTED"])
          | none =>
            let mv : MoveInfo :=
              { odId := oid, cardId := cardId, statValue := statValue
                cardData := d.cardData }
            let g1 := { g with moves := mapSet g.moves oid mv }
            let st1 := { st with games := mapSet st.games gid g1 }
            let oppEvs :=
              match getOpponentOdId g oid with
              | none => []
              | some opp =>
                match mapGet st.userToSocket opp with
                | none => []
                | some osid =>
                  if osid ∈ st.sockets then [Event.opponentMoved osid] else []
            let r := resolveRoundIfReadyS st1 gid
            (r.1, [Event.moveReceived socketId cardId] ++ oppEvs ++ r.2)
  | _, _, _, _ => (st, [Event.moveError socketId "INVALID_MOVE_PAYLOAD"])

/-- The `disconnect` handler.  The transport removes the socket from the
live-socket set; the handler then dequeues the socket, drops its identity
bindings, and - if it was in an unfinished game - marks the slot
disconnected, notifies the opponent, and (re-)arms the grace timer. -/
def handleDisconnect (st : ServerState) (socketId : String) :
    ServerState × List Event :=
  let odId? := mapGet st.socketToUser socketId
  let gameId? := mapGet st.socketToGameId socketId
  let st1 := { st with
    sockets := st.sockets.filter (fun s => s ≠ socketId)
    queue := removeFromQueueBySocket st.queue socketId
    socketToUser := mapDel st.socketToUser socketId
    socketToGameId := mapDel st.socketToGameId socketId
    userToSocket :=
      match odId? with
      | some o => mapDel st.userToSocket o
      | none => st.userToSocket }
  match gameId? with
  | none => (st1, [])
  | some gid =>
    match mapGet st1.games gid with
    | none => (st1, [])
    | some g =>
      if g.isFinished then (st1, [])
      else
        match odId? with
        | none => (st1, [])
        | some oid =>
          match getPlayerIndex g oid with
          | none => (st1, [])
          | some idx =>
            let player := g.playerAt idx
            let g1 := g.setPlayer idx { player with connected := false }
            let opponent := g1.playerAt (getOpponentIndex idx)
            let evs :=
              if opponent.socketId ∈ st1.sockets
              then [Event.opponentDisconnected opponent.socketId player.username]
              else []
            let g2 := { g1 with
              disconnectedPlayerOdId := some player.odId
              disconnectTimer :=
                some { idx := idx, winnerOdId := some opponent.odId
                       loserOdId := player.odId } }
            ({ st1 with games := mapSet st1.games gid g2 }, evs)

/-- The firing of the disconnect-grace timer for a game (the elapse of the
grace period).  Can only run while the timer is still armed
(`clearTimeout` sets the field to `none`); re-reads the current `connected`
flag and `isFinished` latch exactly as the source callback does. -/
def fireDisconnectTimer (st : ServerState) (gameId : String) :
    ServerState × List Event :=
  match mapGet st.games gameId with
  | none => (st, [])
  | some g =>
    match g.disconnectTimer with
    | none => (st, [])
    | some t =>
      if (g.playerAt t.idx).connected = false ∧ g.isFinished = false then
        finishGameS st gameId
          { reason := "opponent-disconnected", winnerOdId := t.winnerOdId
            loserOdId := some t.loserOdId
            disconnectedPlayerOdId := some t.loserOdId }
      else (st, [])

/-- An inbound event: a socket event from a client, a transport-level
connect/disconnect, or the elapse of a game's disconnect-grace period. -/
inductive InEvent where
  | connected (sid : String)
  | disconnected (sid : String)
  | joinQueue (sid : String) (odId username : Option String)
  | leaveQueue (sid : String)
  | playerAccepted (sid : String) (gameId : Option String)
  | joinGame (sid : String) (gameId odId username : Option String)
  | leaveGame (sid : String) (gameId : Option String)
  | submitMove (sid : String) (d : SubmitMoveData)
  | graceElapsed (gameId : String)
deriving Repr, DecidableEq

/-- Single-threaded processing of one inbound event (the server handles each
event to completion before the next). -/
def step (st : ServerState) : InEvent → ServerState × List Event
  | .connected sid => ({ st with sockets := st.sockets ++ [sid] }, [])
  | .disconnected sid => handleDisconnect st sid
  | .joinQueue sid oid uname => handleJoinQueue st sid oid uname
  | .leaveQueue sid => handleLeaveQueue st sid
  | .playerAccepted sid gid => handlePlayerAccepted st sid gid
  | .joinGame sid gid oid uname => handleJoinGame st sid gid oid uname
  | .leaveGame sid gid => handleLeaveGame st sid gid
  | .submitMove sid d => handleSubmitMove st sid d
  | .graceElapsed gid => fireDisconnectTimer st gid

/-- Processing of a sequence of inbound events, accumulating the emits. -/
def runEvents : ServerState → List InEvent → ServerState × List Event
  | st, [] => (st, [])
  | st, e :: rest =>
    let r := step st e
    let r2 := runEvents r.1 rest
    (r2.1, r.2 ++ r2.2)

/-- A sequence of `finishGame` invocations on the same game. -/
def runFinishList (gameId : String) : ServerState → List FinishArgs → ServerState × List Event
  | st, [] => (st, [])
  | st, a :: rest =>
    let r := finishGameS st gameId a
    let r2 := runFinishList gameId r.1 rest
    (r2.1, r.2 ++ r2.2)

/-- The payloads of the `round-completed` emits among a list of emits. -/
def roundCompletedPayloads (evs : List Event) : List RoundCompletedPayload :=
  evs.filterMap fun e =>
    match e with
    | .roundCompleted _ p => some p
    | _ => none

/-- The payloads of the `game-ended` emits among a list of emits. -/
def gameEndedPayloads (evs : List Event) : List GameEndedPayload :=
  evs.filterMap fun e =>
    match e with
    | .gameEnded _ p => some p
    | _ => none

/-- The ids of the registered games that contain the given player and are not
finished. -/
def unfinishedGamesWith (st : ServerState) (oid : String) : List String :=
  st.games.filterMap fun e =>
    if (getPlayerIndex e.2 oid).isSome && !e.2.isFinished then some e.1 else none

/-- Concrete fixture: a player slot. -/
def mkPlayer (oid uname sid : String) (sc : Nat) : Player :=
  { odId := oid, username := uname, socketId := sid
    accepted := true, score := sc, rp := 0, connected := true }

/-- Concrete fixture: a started two-player game `"g1"` between `A` (socket
`sa`) and `B` (socket `sb`) at round `r` with the given scores and pending
moves. -/
def activeGame (r s0 s1 : Nat) (mvs : List (String × MoveInfo)) : Game :=
  { id := "g1"
    player0 := mkPlayer "A" "alice" "sa" s0
    player1 := mkPlayer "B" "bob" "sb" s1
    scores := mapSet (mapSet [] "A" s0) "B" s1
    usedCards := []
    currentRound := getRoundInfo r
    roundNumber := r
    maxRounds := MAX_ROUNDS
    moves := mvs
    isStarted := true
    isFinished := false
    disconnectTimer := none
    disconnectedPlayerOdId := none }

/-- Concrete fixture: a server state holding exactly the game `g` (registered
under `g.id`) with both players' sockets live and all identity maps bound. -/
def twoPlayerState (g : Game) : ServerState :=
  { sockets := ["sa", "sb"]
    queue := []
    games := [(g.id, g)]
    socketToUser := [("sa", g.player0.odId), ("sb", g.player1.odId)]
    userToSocket := [(g.player0.odId, "sa"), (g.player1.odId, "sb")]
    socketToGameId := [("sa", g.id), ("sb", g.id)]
    userToGameId := [(g.player0.odId, g.id), (g.player1.odId, g.id)]
    nextGameId := 1 }

/-- Round 1, no score yet, both moves in (the spec's own concrete scenario:
A plays card 7 with stat 85, B plays card 12 with stat 60). -/
def gRound1 : Game :=
  activeGame 1 0 0 [("A", ⟨"A", 7, 85, none⟩), ("B", ⟨"B", 12, 60, none⟩)]

/-- Final round (5 of 5), scores 3-1, both moves in; resolving it ends the
game by normal completion with A as winner. -/
def gFinal : Game :=
  activeGame 5 3 1 [("A", ⟨"A", 9, 90, none⟩), ("B", ⟨"B", 10, 80, none⟩)]

/-- A started game with no pending moves. -/
def gIdle : Game := activeGame 2 1 0 []

/-- A started game in which A already holds a pending move. -/
def gOneMove : Game := activeGame 1 0 0 [("A", ⟨"A", 7, 85, none⟩)]

/-- A never-started game (`Pairing` state: `isStarted = false`, B has not
accepted yet). -/
def gPairing : Game :=
  { activeGame 1 0 0 [] with
      isStarted := false
      player1 := { mkPlayer "B" "bob" "sb" 0 with accepted := false } }

/-- The empty initial server state with three live sockets. -/
def initState : ServerState :=
  { sockets := ["s1", "s2", "s3"]
    queue := []
    games := []
    socketToUser := []
    userToSocket := []
    socketToGameId := []
    userToGameId := []
    nextGameId := 0 }

/-- The inbound sequence refuting C4: A and B queue up and are paired into
game "0"; both accept, so "0" is Active; A - still a member of the
unfinished, started game "0" - queues again from its live socket and is
paired with C into game "1". -/
def doublePairEvents : List InEvent :=
  [.joinQueue "s1" (some "A") (some "alice"),
   .joinQueue "s2" (some "B") (some "bob"),
   .playerAccepted "s1" (some "0"),
   .playerAccepted "s2" (some "0"),
   .joinQueue "s1" (some "A") (some "alice"),
   .joinQueue "s3" (some "C") (some "cara")]

/-- The state after `doublePairEvents`. -/
def doublePairState : ServerState := (runEvents initState doublePairEvents).1

/-- A state with one waiting queue entry (socket `sz`). -/
def queueState : ServerState :=
  { initState with queue := [⟨"sz", "Z", "zed"⟩] }

theorem mapGet_set {α β : Type} [DecidableEq α] (m : List (α × β)) (k k' : α) (v : β) :
    mapGet (mapSet m k v) k' = if k = k' then some v else mapGet m k' := by
  induction m with
  | nil => simp [mapSet, mapGet]
  | cons e rest ih =>
    obtain ⟨a, b⟩ := e
    by_cases h : a = k
    · subst h
      by_cases h2 : a = k' <;> simp [mapSet, mapGet, h2]
    · by_cases h2 : a = k'
      · subst h2
        have hk : ¬ k = a := fun hh => h hh.symm
        simp [mapSet, mapGet, h, hk]
      · simp [mapSet, mapGet, h, h2, ih]

theorem mapGet_set_self {α β : Type} [DecidableEq α] (m : List (α × β)) (k : α) (v : β) :
    mapGet (mapSet m k v) k = some v := by
  simp [mapGet_set]

theorem mapGet_del {α β : Type} [DecidableEq α] (m : List (α × β)) (k k' : α) :
    mapGet (mapDel m k) k' = if k = k' then none else mapGet m k' := by
  induction m with
  | nil => simp [mapDel, mapGet]
  | cons e rest ih =>
    obtain ⟨a, b⟩ := e
    by_cases h : a = k
    · subst h
      by_cases h2 : a = k'
      · subst h2
        simpa [mapDel] using ih
      · simp [mapDel, mapGet, h2, ih]
    · by_cases h2 : a = k'
      · subst h2
        have hk : ¬ k = a := fun hh => h hh.symm
        simp [mapDel, mapGet, h, hk]
      · simp [mapDel, mapGet, h, h2, ih]

theorem mapGet_del2_fst {α β : Type} [DecidableEq α] (m : List (α × β)) (a b : α) :
    mapGet (mapDel (mapDel m a) b) a = none := by
  simp [mapGet_del]

theorem mapGet_del2_snd {α β : Type} [DecidableEq α] (m : List (α × β)) (a b : α) :
    mapGet (mapDel (mapDel m a) b) b = none := by
  simp [mapGet_del]

theorem finishGameS_of_finished (st : ServerState) (gameId : String) (g : Game)
    (args : FinishArgs) (hg : mapGet st.games gameId = some g)
    (hf : g.isFinished = true) : finishGameS st gameId args = (st, []) := by
  simp [finishGameS, hg, hf]

theorem finishGameCore_isFinished (sockets : List String) (g : Game)
    (args : FinishArgs) (hf : g.isFinished = false) :
    (finishGameCore sockets g args).1.isFinished = true := by
  simp [finishGameCore, hf]

theorem finishGameCore_players (sockets : List String) (g : Game)
    (args : FinishArgs) (hf : g.isFinished = false) :
    (finishGameCore sockets g args).1.player0 = g.player0 ∧
    (finishGameCore sockets g args).1.player1 = g.player1 := by
  simp [finishGameCore, hf]

theorem runFinishList_noop (gameId : String) (st : ServerState)
    (h : ∀ args, finishGameS st gameId args = (st, []))
    (more : List FinishArgs) : runFinishList gameId st more = (st, []) := by
  induction more with
  | nil => rfl
  | cons a rest ih => simp [runFinishList, h a, ih]

/-- C6: termination is idempotent. A `finishGame` call on an already-finished
session is a no-op: no state change and no emitted notification (hence no
termination payload and no ranking-point computation).  A first call on an
unfinished session flips the `isFinished` latch, and thereafter any number of
further `finishGame` invocations, with any arguments, leave the state
unchanged and emit nothing - so exactly one termination notification and one
ranking-point computation are ever produced. -/
theorem finishGame_idempotent (st : ServerState) (gameId : String) (g : Game)
    (args : FinishArgs) (hg : mapGet st.games gameId = some g) :
    (g.isFinished = true → finishGameS st gameId args = (st, [])) ∧
    (g.isFinished = false →
      (∃ g2, mapGet (finishGameS st gameId args).1.games gameId = some g2 ∧
        g2.isFinished = true) ∧
      ∀ more, runFinishList gameId (finishGameS st gameId args).1 more =
        ((finishGameS st gameId args).1, [])) := by
  constructor
  · intro hf
    exact finishGameS_of_finished st gameId g args hg hf
  · intro hf
    have hres : (finishGameS st gameId args).1.games =
        mapSet st.games gameId (finishGameCore st.sockets g args).1 := by
      simp [finishGameS, hg, hf]
    have hget : mapGet (finishGameS st gameId args).1.games gameId =
        some (finishGameCore st.sockets g args).1 := by
      rw [hres, mapGet_set_self]
    refine ⟨⟨_, hget, finishGameCore_isFinished _ _ _ hf⟩, ?_⟩
    intro more
    apply runFinishList_noop
    intro args2
    exact finishGameS_of_finished _ gameId _ args2 hget
      (finishGameCore_isFinished _ _ _ hf)

/-- C6 witness: a concrete forfeit termination followed by two further
`finishGame` invocations, which change nothing and emit nothing. -/
theorem finishGame_idempotent_witness :
    runFinishList "g1"
      (finishGameS (twoPlayerState gIdle) "g1" ⟨"forfeit", some "A", some "B", none⟩).1
      [⟨"forfeit", some "A", some "B", none⟩, ⟨"normal", none, none, none⟩] =
      ((finishGameS (twoPlayerState gIdle) "g1" ⟨"forfeit", some "A", some "B", none⟩).1, []) :=
  ((finishGame_idempotent (twoPlayerState gIdle) "g1" gIdle
      ⟨"forfeit", some "A", some "B", none⟩ (by decide)).2 (by decide)).2
    [⟨"forfeit", some "A", some "B", none⟩, ⟨"normal", none, none, none⟩]

/-- C9: a second `submit-move` by a player who already holds a pending move
for the current round is rejected with the `MOVE_ALREADY_SUBMITTED` typed
error and leaves the entire server state - in particular the first
submission - unchanged. -/
theorem duplicate_move_rejected (st : ServerState) (sid gid oid : String)
    (cardId statValue : Int) (cardData : Option String) (g : Game)
    (m0 : MoveInfo) (i : Nat)
    (hg : mapGet st.games gid = some g)
    (hfin : g.isFinished = false) (hstart : g.isStarted = true)
    (hidx : getPlayerIndex g oid = some i)
    (hmv : mapGet g.moves oid = some m0) :
    handleSubmitMove st sid ⟨some gid, some oid, some cardId, some statValue, cardData⟩ =
      (st, [Event.moveError sid "MOVE_ALREADY_SUBMITTED"]) := by
  simp [handleSubmitMove, hg, hfin, hstart, hidx, hmv]

/-- C9 witness: A already holds its round-1 move in `gOneMove`; a second
submit by A is rejected and the state is untouched. -/
theorem duplicate_move_rejected_witness :
    handleSubmitMove (twoPlayerState gOneMove) "sa"
        ⟨some "g1", some "A", some 3, some 50, none⟩ =
      (twoPlayerState gOneMove, [Event.moveError "sa" "MOVE_ALREADY_SUBMITTED"]) :=
  duplicate_move_rejected (twoPlayerState gOneMove) "sa" "g1" "A" 3 50 none
    gOneMove ⟨"A", 7, 85, none⟩ 0 (by decide) (by decide) (by decide)
    (by decide) (by decide)

/-- C5 (amended): a `join-game` naming a nonexistent session is rejected with
the `GAME_NOT_FOUND` typed error and no state change at all; a `join-game`
naming an existing unfinished session with a player id that is not a member
is rejected with the `NOT_IN_GAME` typed error and the session object is
unchanged, but the four identity indexes are mutated first: the socket is
bound to the player id and both are routed to the session. -/
theorem join_game_rejections (st : ServerState) (sid gid oid : String)
    (username : Option String) :
    (mapGet st.games gid = none →
      handleJoinGame st sid (some gid) (some oid) username =
        (st, [Event.gameError sid "GAME_NOT_FOUND"])) ∧
    (∀ g, mapGet st.games gid = some g → g.isFinished = false →
      getPlayerIndex g oid = none →
      handleJoinGame st sid (some gid) (some oid) username =
        ({ st with
            socketToUser := mapSet st.socketToUser sid oid
            userToSocket := mapSet st.userToSocket oid sid
            socketToGameId := mapSet st.socketToGameId sid gid
            userToGameId := mapSet st.userToGameId oid gid },
          [Event.gameError sid "NOT_IN_GAME"])) := by
  constructor
  · intro h
    simp [handleJoinGame, h]
  · intro g hg hf hi
    simp [handleJoinGame, hg, hf, hi]

/-- C5 witness: both rejection shapes at concrete inputs. -/
theorem join_game_rejections_witness :
    handleJoinGame (twoPlayerState gIdle) "s3" (some "nope") (some "C") none =
      (twoPlayerState gIdle, [Event.gameError "s3" "GAME_NOT_FOUND"]) ∧
    handleJoinGame (twoPlayerState gIdle) "s3" (some "g1") (some "C") none =
      ({ twoPlayerState gIdle with
          socketToUser := mapSet (twoPlayerState gIdle).socketToUser "s3" "C"
          userToSocket := mapSet (twoPlayerState gIdle).userToSocket "C" "s3"
          socketToGameId := mapSet (twoPlayerState gIdle).socketToGameId "s3" "g1"
          userToGameId := mapSet (twoPlayerState gIdle).userToGameId "C" "g1" },
        [Event.gameError "s3" "NOT_IN_GAME"]) :=
  ⟨(join_game_rejections (twoPlayerState gIdle) "s3" "nope" "C" none).1 (by decide),
   (join_game_rejections (twoPlayerState gIdle) "s3" "g1" "C" none).2 gIdle
     (by decide) (by decide) (by decide)⟩

/-- C5 counterexample: a `join-game` for existing session "g1" by non-member
"C" is rejected with a typed error, but the identity indexes *do* change:
"C" is routed to "g1" in the player-to-session index (it was not before),
refuting the claim that the rejection causes no state change. -/
theorem join_game_nonmember_mutates_state :
    (handleJoinGame (twoPlayerState gIdle) "s3" (some "g1") (some "C") none).2 =
      [Event.gameError "s3" "NOT_IN_GAME"] ∧
    mapGet (twoPlayerState gIdle).userToGameId "C" = none ∧
    mapGet (handleJoinGame (twoPlayerState gIdle) "s3" (some "g1") (some "C")
      none).1.userToGameId "C" = some "g1" := by
  decide

/-- C3 (amended): at the termination of an unfinished session, the session's
routing entries are removed from the connection-to-session and
player-to-session identity indexes - afterwards neither player id nor either
bound socket id routes to any session through them - and this happens on the
single latch-guarded termination pass.  However the session object itself is
*not* removed from the session registry: the session id still maps to the
(now finished) session object, and the connection-to-player /
player-to-connection indexes are left untouched. -/
theorem termination_cleanup (st : ServerState) (gameId : String) (g : Game)
    (args : FinishArgs) (hg : mapGet st.games gameId = some g)
    (hf : g.isFinished = false) :
    mapGet (finishGameS st gameId args).1.socketToGameId g.player0.socketId = none ∧
    mapGet (finishGameS st gameId args).1.socketToGameId g.player1.socketId = none ∧
    mapGet (finishGameS st gameId args).1.userToGameId g.player0.odId = none ∧
    mapGet (finishGameS st gameId args).1.userToGameId g.player1.odId = none ∧
    (∃ g2, mapGet (finishGameS st gameId args).1.games gameId = some g2 ∧
      g2.isFinished = true) ∧
    (finishGameS st gameId args).1.socketToUser = st.socketToUser ∧
    (finishGameS st gameId args).1.userToSocket = st.userToSocket := by
  obtain ⟨hp0, hp1⟩ := finishGameCore_players st.sockets g args hf
  have hst : (finishGameS st gameId args).1 =
      { st with
          games := mapSet st.games gameId (finishGameCore st.sockets g args).1
          socketToGameId :=
            mapDel (mapDel st.socketToGameId
              (finishGameCore st.sockets g args).1.player0.socketId)
              (finishGameCore st.sockets g args).1.player1.socketId
          userToGameId :=
            mapDel (mapDel st.userToGameId
              (finishGameCore st.sockets g args).1.player0.odId)
              (finishGameCore st.sockets g args).1.player1.odId } := by
    simp [finishGameS, hg, hf]
  rw [hst]
  refine ⟨?_, ?_, ?_, ?_, ⟨_, mapGet_set_self _ _ _,
    finishGameCore_isFinished _ _ _ hf⟩, rfl, rfl⟩
  · rw [hp0]
    exact mapGet_del2_fst _ _ _
  · rw [hp1]
    exact mapGet_del2_snd _ _ _
  · rw [hp0]
    exact mapGet_del2_fst _ _ _
  · rw [hp1]
    exact mapGet_del2_snd _ _ _

/-- C3 witness: terminating the concrete game "g1" by forfeit removes both
players' routing entries, keeps the finished session in the registry, and
leaves the connection-player indexes alone. -/
theorem termination_cleanup_witness :
    mapGet (finishGameS (twoPlayerState gIdle) "g1"
      ⟨"forfeit", some "A", some "B", none⟩).1.socketToGameId "sa" = none ∧
    mapGet (finishGameS (twoPlayerState gIdle) "g1"
      ⟨"forfeit", some "A", some "B", none⟩).1.socketToGameId "sb" = none ∧
    mapGet (finishGameS (twoPlayerState gIdle) "g1"
      ⟨"forfeit", some "A", some "B", none⟩).1.userToGameId "A" = none ∧
    mapGet (finishGameS (twoPlayerState gIdle) "g1"
      ⟨"forfeit", some "A", some "B", none⟩).1.userToGameId "B" = none ∧
    (∃ g2, mapGet (finishGameS (twoPlayerState gIdle) "g1"
      ⟨"forfeit", some "A", some "B", none⟩).1.games "g1" = some g2 ∧
      g2.isFinished = true) ∧
    (finishGameS (twoPlayerState gIdle) "g1"
      ⟨"forfeit", some "A", some "B", none⟩).1.socketToUser =
      (twoPlayerState gIdle).socketToUser ∧
    (finishGameS (twoPlayerState gIdle) "g1"
      ⟨"forfeit", some "A", some "B", none⟩).1.userToSocket =
      (twoPlayerState gIdle).userToSocket :=
  termination_cleanup (twoPlayerState gIdle) "g1" gIdle
    ⟨"forfeit", some "A", some "B", none⟩ (by decide) (by decide)

/-- C3 counterexample: after terminating "g1" the session id *still* maps to
the session object in the registry (it is merely marked finished), refuting
the claim that after termination the session id no longer maps to the
session object. -/
theorem session_registry_keeps_finished_game :
    mapGet (finishGameS (twoPlayerState gIdle) "g1"
      ⟨"forfeit", some "A", some "B", none⟩).1.games "g1" =
      some { gIdle with isFinished := true } := by
  decide

/-- C1: `finishGame` never emits the normal-completion reason tag: the
reason-tag fallback labels a normal game-over as "forfeit".  Resolving the
final round of the concrete game `gFinal` (round 5 of 5, A 3 : B 1, A wins
the round) terminates the session by normal completion - the ranking-point
deltas are the normal win/loss deltas (+20 / -15), not the forfeit ones -
yet both emitted `game-ended` payloads carry the reason tag "forfeit". -/
theorem normal_completion_tagged_forfeit :
    gFinal.roundNumber = gFinal.maxRounds ∧
    (gameEndedPayloads (resolveRoundIfReadyS (twoPlayerState gFinal) "g1").2).map
      GameEndedPayload.reason = ["forfeit", "forfeit"] ∧
    (gameEndedPayloads (resolveRoundIfReadyS (twoPlayerState gFinal) "g1").2).map
      GameEndedPayload.winner = ["A", "A"] ∧
    (gameEndedPayloads (resolveRoundIfReadyS (twoPlayerState gFinal) "g1").2).map
      GameEndedPayload.rpChange = [[("A", 20), ("B", -15)], [("A", 20), ("B", -15)]] ∧
    (mapGet (resolveRoundIfReadyS (twoPlayerState gFinal) "g1").1.games "g1").map
      Game.isFinished = some true := by
  decide

/-- C2 counterexample: resolving round 1 ("pace") of `gRound1` - a non-final
round, the game continues - broadcasts a `round-completed` payload whose
round metadata is round 2 / "shooting", identical to its `nextRound` field,
not the just-resolved round 1 / "pace": the session advances to the next
round before the payload is built. -/
theorem round_metadata_describes_next_round :
    gRound1.roundNumber = 1 ∧
    gRound1.currentRound = ⟨1, "pace", false⟩ ∧
    (roundCompletedPayloads (resolveRoundIfReadyS (twoPlayerState gRound1) "g1").2).map
      (fun p => (p.round, p.stat, p.nextRound)) =
      [(2, "shooting", some ⟨2, "shooting", false⟩),
       (2, "shooting", some ⟨2, "shooting", false⟩)] := by
  decide

/-- C4 counterexample: after `doublePairEvents`, player A is simultaneously a
member of two unfinished sessions - game "0" (started, Active, with B) and
game "1" (with C) - because `join-queue` and pairing never check whether the
joining player is already in a session.  This refutes the claim that a
member of an active unfinished session is never paired into a second
concurrent session. -/
theorem player_paired_into_second_session :
    unfinishedGamesWith doublePairState "A" = ["0", "1"] ∧
    (mapGet doublePairState.games "0").map Game.isStarted = some true ∧
    (mapGet doublePairState.games "0").map (fun g => (getPlayerIndex g "A").isSome) =
      some true := by
  decide

theorem roundCompletedPayloads_append (a b : List Event) :
    roundCompletedPayloads (a ++ b) =
      roundCompletedPayloads a ++ roundCompletedPayloads b := by
  simp [roundCompletedPayloads]

theorem gameEndedPayloads_append (a b : List Event) :
    gameEndedPayloads (a ++ b) = gameEndedPayloads a ++ gameEndedPayloads b := by
  simp [gameEndedPayloads]

theorem mem_roundCompletedPayloads_broadcast (sockets : List String) (g : Game)
    (pay : RoundCompletedPayload) (p : RoundCompletedPayload)
    (hp : p ∈ roundCompletedPayloads
      (broadcast sockets g (fun sid => Event.roundCompleted sid pay))) :
    p = pay := by
  unfold broadcast at hp
  split_ifs at hp <;> simp_all [roundCompletedPayloads]

theorem mem_gameEndedPayloads_broadcast (sockets : List String) (g : Game)
    (pay : GameEndedPayload) (p : GameEndedPayload)
    (hp : p ∈ gameEndedPayloads
      (broadcast sockets g (fun sid => Event.gameEnded sid pay))) :
    p = pay := by
  unfold broadcast at hp
  split_ifs at hp <;> simp_all [gameEndedPayloads]

theorem roundCompletedPayloads_broadcast_gameEnded (sockets : List String)
    (g : Game) (pay : GameEndedPayload) :
    roundCompletedPayloads
      (broadcast sockets g (fun sid => Event.gameEnded sid pay)) = [] := by
  unfold broadcast
  split_ifs <;> simp [roundCompletedPayloads]

theorem gameEndedPayloads_broadcast_roundCompleted (sockets : List String)
    (g : Game) (pay : RoundCompletedPayload) :
    gameEndedPayloads
      (broadcast sockets g (fun sid => Event.roundCompleted sid pay)) = [] := by
  unfold broadcast
  split_ifs <;> simp [gameEndedPayloads]

theorem roundCompletedPayloads_gameState (sockets : List String) (g : Game) :
    roundCompletedPayloads (emitGameStateEvents sockets g) = [] := by
  unfold emitGameStateEvents broadcast
  split_ifs <;> simp [roundCompletedPayloads]

theorem gameEndedPayloads_gameState (sockets : List String) (g : Game) :
    gameEndedPayloads (emitGameStateEvents sockets g) = [] := by
  unfold emitGameStateEvents broadcast
  split_ifs <;> simp [gameEndedPayloads]

theorem roundCompletedPayloads_finishGameCore (sockets : List String) (g : Game)
    (args : FinishArgs) :
    roundCompletedPayloads (finishGameCore sockets g args).2 = [] := by
  unfold finishGameCore
  by_cases hf : g.isFinished = true
  · rw [if_pos hf]
    rfl
  · rw [if_neg hf]
    exact roundCompletedPayloads_broadcast_gameEnded _ _ _

theorem roundCompletedPayloads_finishGameS (st : ServerState) (gid : String)
    (args : FinishArgs) :
    roundCompletedPayloads (finishGameS st gid args).2 = [] := by
  unfold finishGameS
  cases hm : mapGet st.games gid with
  | none => rfl
  | some g =>
    dsimp only
    by_cases hf : g.isFinished = true
    · rw [if_pos hf]
      rfl
    · rw [if_neg hf]
      exact roundCompletedPayloads_finishGameCore _ _ _

/-- C2 (amended): for a resolved non-final round (game continues), the
`round-completed` payload's round metadata (round number, stat name,
goalkeeper-round flag) describes the NEXT round, not the round just
resolved - the session advances to the next round before the payload is
built, so the metadata coincides with the `nextRound` field.  Only when the
resolved round is the final one (game over) does the metadata describe the
resolved round, and then `nextRound` is absent. -/
theorem round_completed_metadata (st : ServerState) (gid : String) (g : Game)
    (mA mB : MoveInfo)
    (hg : mapGet st.games gid = some g)
    (hods : g.player0.odId ≠ g.player1.odId)
    (hfin : g.isFinished = false)
    (hA : mapGet g.moves g.player0.odId = some mA)
    (hB : mapGet g.moves g.player1.odId = some mB) :
    ∀ p ∈ roundCompletedPayloads (resolveRoundIfReadyS st gid).2,
      (g.roundNumber < g.maxRounds →
        p.round = (getRoundInfo (g.roundNumber + 1)).round ∧
        p.stat = (getRoundInfo (g.roundNumber + 1)).stat ∧
        p.isGKRound = (getRoundInfo (g.roundNumber + 1)).isGKRound ∧
        p.nextRound = some (getRoundInfo (g.roundNumber + 1))) ∧
      (g.maxRounds ≤ g.roundNumber →
        p.round = g.currentRound.round ∧
        p.stat = g.currentRound.stat ∧
        p.isGKRound = g.currentRound.isGKRound ∧
        p.nextRound = none) := by
  intro p hp
  by_cases hover : g.maxRounds ≤ g.roundNumber
  · rcases lt_trichotomy mA.statValue mB.statValue with hlt | heq | hgt
    · simp [resolveRoundIfReadyS, hg, hfin, hA, hB, hods, hlt.ne, hlt.asymm,
        getPlayerIndex, Game.playerAt, Game.setPlayer, hover,
        roundCompletedPayloads_append, roundCompletedPayloads_finishGameS,
        roundCompletedPayloads_gameState] at hp
      have hpp := mem_roundCompletedPayloads_broadcast _ _ _ _ hp
      subst hpp
      exact ⟨fun h => absurd hover (by omega), fun h => ⟨rfl, rfl, rfl, rfl⟩⟩
    · simp [resolveRoundIfReadyS, hg, hfin, hA, hB, hods, heq,
        getPlayerIndex, Game.playerAt, Game.setPlayer, hover,
        roundCompletedPayloads_append, roundCompletedPayloads_finishGameS,
        roundCompletedPayloads_gameState] at hp
      have hpp := mem_roundCompletedPayloads_broadcast _ _ _ _ hp
      subst hpp
      exact ⟨fun h => absurd hover (by omega), fun h => ⟨rfl, rfl, rfl, rfl⟩⟩
    · simp [resolveRoundIfReadyS, hg, hfin, hA, hB, hods, hgt.ne', hgt,
        getPlayerIndex, Game.playerAt, Game.setPlayer, hover,
        roundCompletedPayloads_append, roundCompletedPayloads_finishGameS,
        roundCompletedPayloads_gameState] at hp
      have hpp := mem_roundCompletedPayloads_broadcast _ _ _ _ hp
      subst hpp
      exact ⟨fun h => absurd hover (by omega), fun h => ⟨rfl, rfl, rfl, rfl⟩⟩
  · rcases lt_trichotomy mA.statValue mB.statValue with hlt | heq | hgt
    · simp [resolveRoundIfReadyS, hg, hfin, hA, hB, hods, hlt.ne, hlt.asymm,
        getPlayerIndex, Game.playerAt, Game.setPlayer, hover,
        roundCompletedPayloads_append, roundCompletedPayloads_finishGameS,
        roundCompletedPayloads_gameState] at hp
      have hpp := mem_roundCompletedPayloads_broadcast _ _ _ _ hp
      subst hpp
      exact ⟨fun h => ⟨rfl, rfl, rfl, rfl⟩, fun h => absurd h hover⟩
    · simp [resolveRoundIfReadyS, hg, hfin, hA, hB, hods, heq,
        getPlayerIndex, Game.playerAt, Game.setPlayer, hover,
        roundCompletedPayloads_append, roundCompletedPayloads_finishGameS,
        roundCompletedPayloads_gameState] at hp
      have hpp := mem_roundCompletedPayloads_broadcast _ _ _ _ hp
      subst hpp
      exact ⟨fun h => ⟨rfl, rfl, rfl, rfl⟩, fun h => absurd h hover⟩
    · simp [resolveRoundIfReadyS, hg, hfin, hA, hB, hods, hgt.ne', hgt,
        getPlayerIndex, Game.playerAt, Game.setPlayer, hover,
        roundCompletedPayloads_append, roundCompletedPayloads_finishGameS,
        roundCompletedPayloads_gameState] at hp
      have hpp := mem_roundCompletedPayloads_broadcast _ _ _ _ hp
      subst hpp
      exact ⟨fun h => ⟨rfl, rfl, rfl, rfl⟩, fun h => absurd h hover⟩

/-- C2 witness: the amended metadata description instantiated on the concrete
round-1 resolution of `gRound1`, where two round-completed payloads are in
fact broadcast. -/
theorem round_completed_metadata_witness :
    (roundCompletedPayloads
      (resolveRoundIfReadyS (twoPlayerState gRound1) "g1").2).length = 2 ∧
    ∀ p ∈ roundCompletedPayloads
        (resolveRoundIfReadyS (twoPlayerState gRound1) "g1").2,
      (gRound1.roundNumber < gRound1.maxRounds →
        p.round = (getRoundInfo (gRound1.roundNumber + 1)).round ∧
        p.stat = (getRoundInfo (gRound1.roundNumber + 1)).stat ∧
        p.isGKRound = (getRoundInfo (gRound1.roundNumber + 1)).isGKRound ∧
        p.nextRound = some (getRoundInfo (gRound1.roundNumber + 1))) ∧
      (gRound1.maxRounds ≤ gRound1.roundNumber →
        p.round = gRound1.currentRound.round ∧
        p.stat = gRound1.currentRound.stat ∧
        p.isGKRound = gRound1.currentRound.isGKRound ∧
        p.nextRound = none) :=
  ⟨by decide,
   round_completed_metadata (twoPlayerState gRound1) "g1" gRound1
     ⟨"A", 7, 85, none⟩ ⟨"B", 12, 60, none⟩ (by decide) (by decide)
     (by decide) (by decide) (by decide)⟩

/-- C7: round resolution runs exactly when both players hold a pending move
for the current round (a finished session, or either move missing, leaves
state and emits untouched); the player with the strictly greater `statValue`
gains +1 to their score and equal values score neither player; both pending
moves are cleared unconditionally; and when the resolved round is the
`maxRounds`-th (roundNumber has reached maxRounds = 5) the session is
finished, with the strictly-higher-scoring player reported as overall winner
in the round-completed and game-ended payloads, or no winner (empty winner
field) on equal final scores; otherwise the session continues into round
`roundNumber + 1`. -/
theorem round_resolution_spec (st : ServerState) (gid : String) (g : Game)
    (hg : mapGet st.games gid = some g)
    (hods : g.player0.odId ≠ g.player1.odId) :
    (g.isFinished = true → resolveRoundIfReadyS st gid = (st, [])) ∧
    (g.isFinished = false → mapGet g.moves g.player0.odId = none →
      resolveRoundIfReadyS st gid = (st, [])) ∧
    (g.isFinished = false → mapGet g.moves g.player1.odId = none →
      resolveRoundIfReadyS st gid = (st, [])) ∧
    (∀ mA mB, g.isFinished = false →
      mapGet g.moves g.player0.odId = some mA →
      mapGet g.moves g.player1.odId = some mB →
      ∃ g2, mapGet (resolveRoundIfReadyS st gid).1.games gid = some g2 ∧
        g2.moves = [] ∧
        g2.player0.score =
          (if mA.statValue > mB.statValue then g.player0.score + 1
           else g.player0.score) ∧
        g2.player1.score =
          (if mB.statValue > mA.statValue then g.player1.score + 1
           else g.player1.score) ∧
        (g.maxRounds ≤ g.roundNumber →
          g2.isFinished = true ∧
          (∀ p ∈ roundCompletedPayloads (resolveRoundIfReadyS st gid).2,
            p.isGameOver = true ∧
            p.finalWinner =
              (if g2.player0.score > g2.player1.score then some g.player0.odId
               else if g2.player1.score > g2.player0.score then some g.player1.odId
               else none)) ∧
          (∀ p ∈ gameEndedPayloads (resolveRoundIfReadyS st gid).2,
            p.winner =
              (if g2.player0.score > g2.player1.score then g.player0.odId
               else if g2.player1.score > g2.player0.score then g.player1.odId
               else ""))) ∧
        (g.roundNumber < g.maxRounds →
          g2.isFinished = false ∧
          g2.roundNumber = g.roundNumber + 1 ∧
          g2.currentRound = getRoundInfo (g.roundNumber + 1) ∧
          ∀ p ∈ roundCompletedPayloads (resolveRoundIfReadyS st gid).2,
            p.isGameOver = false)) := by
  refine ⟨?_, ?_, ?_, ?_⟩
  · intro hf
    simp [resolveRoundIfReadyS, hg, hf]
  · intro hfin hA
    cases hB : mapGet g.moves g.player1.odId <;>
      simp [resolveRoundIfReadyS, hg, hfin, hA, hB]
  · intro hfin hB
    cases hA : mapGet g.moves g.player0.odId <;>
      simp [resolveRoundIfReadyS, hg, hfin, hA, hB]
  · intro mA mB hfin hA hB
    rcases lt_trichotomy mA.statValue mB.statValue with hlt | heq | hgt
    · by_cases hover : g.maxRounds ≤ g.roundNumber
      · simp [resolveRoundIfReadyS, hg, hfin, hA, hB, hods, hlt, hlt.ne, hlt.asymm,
          getPlayerIndex, Game.playerAt, Game.setPlayer, hover, mapGet_set,
          finishGameS, finishGameCore, mapGet_set_self,
          roundCompletedPayloads_append, roundCompletedPayloads_broadcast_gameEnded,
          roundCompletedPayloads_gameState, gameEndedPayloads_append,
          gameEndedPayloads_broadcast_roundCompleted, gameEndedPayloads_gameState]
        refine ⟨?_, ?_⟩
        · intro p hp
          have hpp := mem_roundCompletedPayloads_broadcast _ _ _ _ hp
          subst hpp
          exact ⟨rfl, rfl⟩
        · intro p hp
          have hpp := mem_gameEndedPayloads_broadcast _ _ _ _ hp
          subst hpp
          split_ifs <;> rfl
      · simp [resolveRoundIfReadyS, hg, hfin, hA, hB, hods, hlt, hlt.ne, hlt.asymm,
          getPlayerIndex, Game.playerAt, Game.setPlayer, hover, mapGet_set,
          roundCompletedPayloads_append, roundCompletedPayloads_broadcast_gameEnded,
          roundCompletedPayloads_gameState, gameEndedPayloads_append,
          gameEndedPayloads_broadcast_roundCompleted, gameEndedPayloads_gameState]
        intro _ p hp
        have hpp := mem_roundCompletedPayloads_broadcast _ _ _ _ hp
        subst hpp
        rfl
    · by_cases hover : g.maxRounds ≤ g.roundNumber
      · simp [resolveRoundIfReadyS, hg, hfin, hA, hB, hods, heq,
          getPlayerIndex, Game.playerAt, Game.setPlayer, hover, mapGet_set,
          finishGameS, finishGameCore, mapGet_set_self,
          roundCompletedPayloads_append, roundCompletedPayloads_broadcast_gameEnded,
          roundCompletedPayloads_gameState, gameEndedPayloads_append,
          gameEndedPayloads_broadcast_roundCompleted, gameEndedPayloads_gameState]
        refine ⟨?_, ?_⟩
        · intro p hp
          have hpp := mem_roundCompletedPayloads_broadcast _ _ _ _ hp
          subst hpp
          exact ⟨rfl, rfl⟩
        · intro p hp
          have hpp := mem_gameEndedPayloads_broadcast _ _ _ _ hp
          subst hpp
          split_ifs <;> rfl
      · simp [resolveRoundIfReadyS, hg, hfin, hA, hB, hods, heq,
          getPlayerIndex, Game.playerAt, Game.setPlayer, hover, mapGet_set,
          roundCompletedPayloads_append, roundCompletedPayloads_broadcast_gameEnded,
          roundCompletedPayloads_gameState, gameEndedPayloads_append,
          gameEndedPayloads_broadcast_roundCompleted, gameEndedPayloads_gameState]
        intro _ p hp
        have hpp := mem_roundCompletedPayloads_broadcast _ _ _ _ hp
        subst hpp
        rfl
    · by_cases hover : g.maxRounds ≤ g.roundNumber
      · simp [resolveRoundIfReadyS, hg, hfin, hA, hB, hods, hgt, hgt.ne', hgt.asymm,
          getPlayerIndex, Game.playerAt, Game.setPlayer, hover, mapGet_set,
          finishGameS, finishGameCore, mapGet_set_self,
          roundCompletedPayloads_append, roundCompletedPayloads_broadcast_gameEnded,
          roundCompletedPayloads_gameState, gameEndedPayloads_append,
          gameEndedPayloads_broadcast_roundCompleted, gameEndedPayloads_gameState]
        refine ⟨?_, ?_⟩
        · intro p hp
          have hpp := mem_roundCompletedPayloads_broadcast _ _ _ _ hp
          subst hpp
          exact ⟨rfl, rfl⟩
        · intro p hp
          have hpp := mem_gameEndedPayloads_broadcast _ _ _ _ hp
          subst hpp
          split_ifs <;> rfl
      · simp [resolveRoundIfReadyS, hg, hfin, hA, hB, hods, hgt, hgt.ne', hgt.asymm,
          getPlayerIndex, Game.playerAt, Game.setPlayer, hover, mapGet_set,
          roundCompletedPayloads_append, roundCompletedPayloads_broadcast_gameEnded,
          roundCompletedPayloads_gameState, gameEndedPayloads_append,
          gameEndedPayloads_broadcast_roundCompleted, gameEndedPayloads_gameState]
        intro _ p hp
        have hpp := mem_roundCompletedPayloads_broadcast _ _ _ _ hp
        subst hpp
        rfl

/-- C7 witness: the no-resolution case on `gOneMove` (B's move missing) and
the final-round resolution of `gFinal` (round 5 of 5, stat values 90 vs 80),
with all hypotheses discharged concretely. -/
theorem round_resolution_spec_witness :
    resolveRoundIfReadyS (twoPlayerState gOneMove) "g1" =
      (twoPlayerState gOneMove, []) ∧
    (∃ g2, mapGet (resolveRoundIfReadyS (twoPlayerState gFinal) "g1").1.games "g1" =
        some g2 ∧
      g2.moves = [] ∧
      g2.player0.score =
        (if (90 : Int) > 80 then gFinal.player0.score + 1
         else gFinal.player0.score) ∧
      g2.player1.score =
        (if (80 : Int) > 90 then gFinal.player1.score + 1
         else gFinal.player1.score) ∧
      (gFinal.maxRounds ≤ gFinal.roundNumber →
        g2.isFinished = true ∧
        (∀ p ∈ roundCompletedPayloads
            (resolveRoundIfReadyS (twoPlayerState gFinal) "g1").2,
          p.isGameOver = true ∧
          p.finalWinner =
            (if g2.player0.score > g2.player1.score then some gFinal.player0.odId
             else if g2.player1.score > g2.player0.score then some gFinal.player1.odId
             else none)) ∧
        (∀ p ∈ gameEndedPayloads
            (resolveRoundIfReadyS (twoPlayerState gFinal) "g1").2,
          p.winner =
            (if g2.player0.score > g2.player1.score then gFinal.player0.odId
             else if g2.player1.score > g2.player0.score then gFinal.player1.odId
             else ""))) ∧
      (gFinal.roundNumber < gFinal.maxRounds →
        g2.isFinished = false ∧
        g2.roundNumber = gFinal.roundNumber + 1 ∧
        g2.currentRound = getRoundInfo (gFinal.roundNumber + 1) ∧
        ∀ p ∈ roundCompletedPayloads
            (resolveRoundIfReadyS (twoPlayerState gFinal) "g1").2,
          p.isGameOver = false)) :=
  ⟨(round_resolution_spec (twoPlayerState gOneMove) "g1" gOneMove (by decide)
      (by decide)).2.2.1 (by decide) (by decide),
   (round_resolution_spec (twoPlayerState gFinal) "g1" gFinal (by decide)
      (by decide)).2.2.2 ⟨"A", 9, 90, none⟩ ⟨"B", 10, 80, none⟩ (by decide)
      (by decide) (by decide)⟩

theorem removeFromQueueBySocket_sublist (q : List QueueEntry) (sid : String) :
    List.Sublist (removeFromQueueBySocket q sid) q := by
  induction q with
  | nil => simp [removeFromQueueBySocket]
  | cons e rest ih =>
    by_cases h : e.socketId = sid
    · simp only [removeFromQueueBySocket, h, if_pos]
      exact List.sublist_cons_self e rest
    · simp only [removeFromQueueBySocket, h, if_neg, ite_false]
      exact ih.cons₂ e

theorem not_mem_removeFromQueueBySocket (q : List QueueEntry) (sid : String)
    (h : (q.map QueueEntry.socketId).Nodup) :
    sid ∉ (removeFromQueueBySocket q sid).map QueueEntry.socketId := by
  induction q with
  | nil => simp [removeFromQueueBySocket]
  | cons e rest ih =>
    simp only [List.map_cons, List.nodup_cons] at h
    by_cases he : e.socketId = sid
    · simp only [removeFromQueueBySocket, he, if_pos]
      exact he ▸ h.1
    · simp only [removeFromQueueBySocket, he, if_neg, ite_false, List.map_cons,
        List.mem_cons]
      push_neg
      exact ⟨fun h2 => he h2.symm, ih h.2⟩

theorem tryMatchAux_queue_sublist :
    ∀ (q : List QueueEntry) (st : ServerState),
      List.Sublist (tryMatchAux q st).1.queue q
  | [], _ => by
    simp [tryMatchAux]
  | [e], _ => by
    simp [tryMatchAux]
  | e1 :: e2 :: rest, st => by
    simp only [tryMatchAux]
    exact ((tryMatchAux_queue_sublist rest _).trans
      (List.sublist_cons_self e2 rest)).trans
      (List.sublist_cons_self e1 (e2 :: rest))

theorem tryMatchPlayers_queue_nodup (st : ServerState)
    (h : (st.queue.map QueueEntry.socketId).Nodup) :
    (((tryMatchPlayers st).1.queue).map QueueEntry.socketId).Nodup :=
  List.Nodup.sublist ((tryMatchAux_queue_sublist st.queue st).map QueueEntry.socketId) h

/-- C4 (amended): a member of an active unfinished session is not prevented
from re-queueing and being paired into a second concurrent session (refuted
by the counterexample); the uniqueness `join-queue` does enforce is per
connection: enqueueing first removes any prior entry for the same socket, so
if the queue holds at most one entry per connection id before a `join-queue`,
it still does afterwards (pairing only ever removes entries). -/
theorem join_queue_connection_unique (st : ServerState) (sid oid uname : String)
    (h : (st.queue.map QueueEntry.socketId).Nodup) :
    (((handleJoinQueue st sid (some oid) (some uname)).1.queue).map
      QueueEntry.socketId).Nodup := by
  have hrm : ((removeFromQueueBySocket st.queue sid).map QueueEntry.socketId).Nodup :=
    List.Nodup.sublist ((removeFromQueueBySocket_sublist st.queue sid).map
      QueueEntry.socketId) h
  have hq2 : (((removeFromQueueBySocket st.queue sid ++
      [(⟨sid, oid, uname⟩ : QueueEntry)]).map QueueEntry.socketId)).Nodup := by
    rw [List.map_append]
    rw [List.nodup_append]
    refine ⟨hrm, by simp, ?_⟩
    intro a ha hb
    simp at hb
    subst hb
    exact not_mem_removeFromQueueBySocket st.queue _ h ha
  exact tryMatchPlayers_queue_nodup _ hq2

/-- C4 witness: joining the queue of `queueState` (which already holds one
entry, so the new arrival is immediately paired) keeps the per-connection
uniqueness of the queue. -/
theorem join_queue_connection_unique_witness :
    (((handleJoinQueue queueState "s1" (some "A") (some "alice")).1.queue).map
      QueueEntry.socketId).Nodup :=
  join_queue_connection_unique queueState "s1" "A" "alice" (by decide)
theorem not_mem_filter_ne_self (l : List String) (b : String) :
    b ∉ l.filter (fun s => s ≠ b) := by
  simp [List.mem_filter]

theorem mem_filter_ne (l : List String) (a b : String) (h1 : a ∈ l)
    (h2 : a ≠ b) : a ∈ l.filter (fun s => s ≠ b) := by
  simp [List.mem_filter, h1, h2]

/-- C8: for a session in which one player disconnects (the slot is marked
disconnected and the grace timer armed with the captured winner/loser
identities): if that player rejoins (join-game) before the grace period
elapses, the session is not terminated - it stays unfinished and the timer
firing afterwards is a complete no-op; if the player does not rejoin before
the grace period elapses, the timer firing terminates the session with
reason "opponent-disconnected", the still-connected player as winner and the
disconnected player as loser. -/
theorem disconnect_grace_period (st : ServerState) (sid sid2 oid gid : String)
    (g : Game) (i : Nat)
    (h1 : mapGet st.socketToUser sid = some oid)
    (h2 : mapGet st.socketToGameId sid = some gid)
    (h3 : mapGet st.games gid = some g)
    (h4 : g.isFinished = false)
    (h5 : getPlayerIndex g oid = some i)
    (h6 : (g.playerAt i).socketId = sid)
    (h7 : (g.playerAt (getOpponentIndex i)).socketId ∈ st.sockets)
    (h8 : (g.playerAt (getOpponentIndex i)).socketId ≠ sid) :
    (∃ g1, mapGet (handleDisconnect st sid).1.games gid = some g1 ∧
      g1.isFinished = false ∧
      (g1.playerAt i).connected = false ∧
      g1.disconnectTimer =
        some ⟨i, some (g.playerAt (getOpponentIndex i)).odId, (g.playerAt i).odId⟩) ∧
    (∃ g2, mapGet (handleJoinGame (handleDisconnect st sid).1 sid2 (some gid)
        (some oid) none).1.games gid = some g2 ∧
      g2.isFinished = false ∧
      (g2.playerAt i).connected = true ∧
      fireDisconnectTimer (handleJoinGame (handleDisconnect st sid).1 sid2
        (some gid) (some oid) none).1 gid =
        ((handleJoinGame (handleDisconnect st sid).1 sid2 (some gid)
          (some oid) none).1, [])) ∧
    (∃ g3, mapGet (fireDisconnectTimer (handleDisconnect st sid).1 gid).1.games gid =
        some g3 ∧ g3.isFinished = true ∧
      ∃ p, gameEndedPayloads
          (fireDisconnectTimer (handleDisconnect st sid).1 gid).2 = [p] ∧
        p.reason = "opponent-disconnected" ∧
        p.winner = (g.playerAt (getOpponentIndex i)).odId ∧
        p.loser = (g.playerAt i).odId) := by
  by_cases hi : i = 0
  · subst hi
    have hp0 : g.player0.odId = oid := by
      by_cases hc : g.player0.odId = oid
      · exact hc
      · by_cases hc2 : g.player1.odId = oid <;> simp [getPlayerIndex, hc, hc2] at h5
    have hout : sid ∉ st.sockets.filter (fun s => s ≠ sid) :=
      not_mem_filter_ne_self st.sockets sid
    have hin : g.player1.socketId ∈ st.sockets.filter (fun s => s ≠ sid) := by
      refine mem_filter_ne st.sockets _ sid ?_ ?_
      · simpa [Game.playerAt, getOpponentIndex] using h7
      · simpa [Game.playerAt, getOpponentIndex] using h8
    have hsid0 : g.player0.socketId = sid := by
      simpa [Game.playerAt] using h6
    have h7a : g.player1.socketId ∈ st.sockets := by
      simpa [Game.playerAt, getOpponentIndex] using h7
    have h8a : ¬ g.player1.socketId = sid := by
      simpa [Game.playerAt, getOpponentIndex] using h8
    refine ⟨?_, ?_, ?_⟩
    · simp [handleDisconnect, h1, h2, h3, h4, h5, Game.playerAt, Game.setPlayer,
        getOpponentIndex, mapGet_set_self]
    · simp [handleDisconnect, h1, h2, h3, h4, h5, Game.playerAt, Game.setPlayer,
        getOpponentIndex, mapGet_set_self, handleJoinGame, hp0, getPlayerIndex,
        fireDisconnectTimer]
    · simp [handleDisconnect, h1, h2, h3, h4, h5, Game.playerAt, Game.setPlayer,
        getOpponentIndex, mapGet_set_self, fireDisconnectTimer, finishGameS,
        finishGameCore, broadcast, gameEndedPayloads, hout, hin, hsid0, h7a, h8a]
  · have hi1 : i = 1 := by
      by_cases hc : g.player0.odId = oid
      · simp [getPlayerIndex, hc] at h5
        omega
      · by_cases hc2 : g.player1.odId = oid
        · simp [getPlayerIndex, hc, hc2] at h5
          omega
        · simp [getPlayerIndex, hc, hc2] at h5
    subst hi1
    have hc0 : ¬ g.player0.odId = oid := by
      intro hc
      simp [getPlayerIndex, hc] at h5
    have hp1 : g.player1.odId = oid := by
      by_cases hc : g.player1.odId = oid
      · exact hc
      · simp [getPlayerIndex, hc0, hc] at h5
    have hout : sid ∉ st.sockets.filter (fun s => s ≠ sid) :=
      not_mem_filter_ne_self st.sockets sid
    have hsid1 : g.player1.socketId = sid := by
      simpa [Game.playerAt] using h6
    have h7a : g.player0.socketId ∈ st.sockets := by
      simpa [Game.playerAt, getOpponentIndex] using h7
    have h8a : ¬ g.player0.socketId = sid := by
      simpa [Game.playerAt, getOpponentIndex] using h8
    refine ⟨?_, ?_, ?_⟩
    · simp [handleDisconnect, h1, h2, h3, h4, h5, Game.playerAt, Game.setPlayer,
        getOpponentIndex, mapGet_set_self]
    · simp [handleDisconnect, h1, h2, h3, h4, h5, Game.playerAt, Game.setPlayer,
        getOpponentIndex, mapGet_set_self, handleJoinGame, hp1, hc0, getPlayerIndex,
        fireDisconnectTimer]
    · simp [handleDisconnect, h1, h2, h3, h4, h5, Game.playerAt, Game.setPlayer,
        getOpponentIndex, mapGet_set_self, fireDisconnectTimer, finishGameS,
        finishGameCore, broadcast, gameEndedPayloads, hout, hsid1, h7a, h8a]

/-- C8 witness: player B (socket `sb`) of the concrete active game `gIdle`
disconnects; rejoining from socket `sc` keeps the session alive and
neutralises the timer, while letting the timer fire terminates the session
with B as loser. -/
theorem disconnect_grace_period_witness :
    (∃ g1, mapGet (handleDisconnect (twoPlayerState gIdle) "sb").1.games "g1" =
        some g1 ∧
      g1.isFinished = false ∧
      (g1.playerAt 1).connected = false ∧
      g1.disconnectTimer =
        some ⟨1, some (gIdle.playerAt (getOpponentIndex 1)).odId,
          (gIdle.playerAt 1).odId⟩) ∧
    (∃ g2, mapGet (handleJoinGame (handleDisconnect (twoPlayerState gIdle) "sb").1
        "sc" (some "g1") (some "B") none).1.games "g1" = some g2 ∧
      g2.isFinished = false ∧
      (g2.playerAt 1).connected = true ∧
      fireDisconnectTimer (handleJoinGame
        (handleDisconnect (twoPlayerState gIdle) "sb").1 "sc" (some "g1")
        (some "B") none).1 "g1" =
        ((handleJoinGame (handleDisconnect (twoPlayerState gIdle) "sb").1 "sc"
          (some "g1") (some "B") none).1, [])) ∧
    (∃ g3, mapGet (fireDisconnectTimer
        (handleDisconnect (twoPlayerState gIdle) "sb").1 "g1").1.games "g1" =
        some g3 ∧ g3.isFinished = true ∧
      ∃ p, gameEndedPayloads (fireDisconnectTimer
          (handleDisconnect (twoPlayerState gIdle) "sb").1 "g1").2 = [p] ∧
        p.reason = "opponent-disconnected" ∧
        p.winner = (gIdle.playerAt (getOpponentIndex 1)).odId ∧
        p.loser = (gIdle.playerAt 1).odId) :=
  disconnect_grace_period (twoPlayerState gIdle) "sb" "sc" "B" "g1" gIdle 1
    (by decide) (by decide) (by decide) (by decide) (by decide) (by decide)
    (by decide) (by decide)

/-- C10: disconnect-grace handling is applied regardless of whether the
session has started.  If a player's connection is lost while the session is
still in the Pairing state (`isStarted = false`), the slot is marked
disconnected, the opponent is notified, and the grace timer is armed; absent
a rejoin, the timer firing terminates the never-started session with reason
"opponent-disconnected" and the remaining player as winner. -/
theorem pairing_disconnect_grace (st : ServerState) (sid oid gid : String)
    (g : Game) (i : Nat)
    (h1 : mapGet st.socketToUser sid = some oid)
    (h2 : mapGet st.socketToGameId sid = some gid)
    (h3 : mapGet st.games gid = some g)
    (h4 : g.isFinished = false)
    (h5 : getPlayerIndex g oid = some i)
    (h6 : (g.playerAt i).socketId = sid)
    (h7 : (g.playerAt (getOpponentIndex i)).socketId ∈ st.sockets)
    (h8 : (g.playerAt (getOpponentIndex i)).socketId ≠ sid)
    (hstart : g.isStarted = false) :
    (handleDisconnect st sid).2 =
      [Event.opponentDisconnected (g.playerAt (getOpponentIndex i)).socketId
        (g.playerAt i).username] ∧
    (∃ g1, mapGet (handleDisconnect st sid).1.games gid = some g1 ∧
      g1.isStarted = false ∧
      g1.isFinished = false ∧
      (g1.playerAt i).connected = false ∧
      g1.disconnectTimer =
        some ⟨i, some (g.playerAt (getOpponentIndex i)).odId,
          (g.playerAt i).odId⟩) ∧
    (∃ g3, mapGet (fireDisconnectTimer (handleDisconnect st sid).1 gid).1.games gid =
        some g3 ∧ g3.isFinished = true ∧
      ∃ p, gameEndedPayloads
          (fireDisconnectTimer (handleDisconnect st sid).1 gid).2 = [p] ∧
        p.reason = "opponent-disconnected" ∧
        p.winner = (g.playerAt (getOpponentIndex i)).odId ∧
        p.loser = (g.playerAt i).odId) := by
  by_cases hi : i = 0
  · subst hi
    have hp0 : g.player0.odId = oid := by
      by_cases hc : g.player0.odId = oid
      · exact hc
      · by_cases hc2 : g.player1.odId = oid <;> simp [getPlayerIndex, hc, hc2] at h5
    have hout : sid ∉ st.sockets.filter (fun s => s ≠ sid) :=
      not_mem_filter_ne_self st.sockets sid
    have hsid0 : g.player0.socketId = sid := by
      simpa [Game.playerAt] using h6
    have h7a : g.player1.socketId ∈ st.sockets := by
      simpa [Game.playerAt, getOpponentIndex] using h7
    have h8a : ¬ g.player1.socketId = sid := by
      simpa [Game.playerAt, getOpponentIndex] using h8
    refine ⟨?_, ?_, ?_⟩
    · simp [handleDisconnect, h1, h2, h3, h4, h5, Game.playerAt, Game.setPlayer,
        getOpponentIndex, List.mem_filter, h7a, h8a]
    · simp [handleDisconnect, h1, h2, h3, h4, h5, Game.playerAt, Game.setPlayer,
        getOpponentIndex, mapGet_set_self, hstart]
    · simp [handleDisconnect, h1, h2, h3, h4, h5, Game.playerAt, Game.setPlayer,
        getOpponentIndex, mapGet_set_self, fireDisconnectTimer, finishGameS,
        finishGameCore, broadcast, gameEndedPayloads, hout, hsid0, h7a, h8a]
  · have hi1 : i = 1 := by
      by_cases hc : g.player0.odId = oid
      · simp [getPlayerIndex, hc] at h5
        omega
      · by_cases hc2 : g.player1.odId = oid
        · simp [getPlayerIndex, hc, hc2] at h5
          omega
        · simp [getPlayerIndex, hc, hc2] at h5
    subst hi1
    have hc0 : ¬ g.player0.odId = oid := by
      intro hc
      simp [getPlayerIndex, hc] at h5
    have hp1 : g.player1.odId = oid := by
      by_cases hc : g.player1.odId = oid
      · exact hc
      · simp [getPlayerIndex, hc0, hc] at h5
    have hout : sid ∉ st.sockets.filter (fun s => s ≠ sid) :=
      not_mem_filter_ne_self st.sockets sid
    have hsid1 : g.player1.socketId = sid := by
      simpa [Game.playerAt] using h6
    have h7a : g.player0.socketId ∈ st.sockets := by
      simpa [Game.playerAt, getOpponentIndex] using h7
    have h8a : ¬ g.player0.socketId = sid := by
      simpa [Game.playerAt, getOpponentIndex] using h8
    refine ⟨?_, ?_, ?_⟩
    · simp [handleDisconnect, h1, h2, h3, h4, h5, Game.playerAt, Game.setPlayer,
        getOpponentIndex, List.mem_filter, h7a, h8a]
    · simp [handleDisconnect, h1, h2, h3, h4, h5, Game.playerAt, Game.setPlayer,
        getOpponentIndex, mapGet_set_self, hstart]
    · simp [handleDisconnect, h1, h2, h3, h4, h5, Game.playerAt, Game.setPlayer,
        getOpponentIndex, mapGet_set_self, fireDisconnectTimer, finishGameS,
        finishGameCore, broadcast, gameEndedPayloads, hout, hsid1, h7a, h8a]

/-- C10 witness: player B of the never-started game `gPairing` disconnects;
the opponent is notified, the timer is armed, and its firing terminates the
session with B as loser. -/
theorem pairing_disconnect_grace_witness :
    (handleDisconnect (twoPlayerState gPairing) "sb").2 =
      [Event.opponentDisconnected
        (gPairing.playerAt (getOpponentIndex 1)).socketId
        (gPairing.playerAt 1).username] ∧
    (∃ g1, mapGet (handleDisconnect (twoPlayerState gPairing) "sb").1.games "g1" =
        some g1 ∧
      g1.isStarted = false ∧
      g1.isFinished = false ∧
      (g1.playerAt 1).connected = false ∧
      g1.disconnectTimer =
        some ⟨1, some (gPairing.playerAt (getOpponentIndex 1)).odId,
          (gPairing.playerAt 1).odId⟩) ∧
    (∃ g3, mapGet (fireDisconnectTimer
        (handleDisconnect (twoPlayerState gPairing) "sb").1 "g1").1.games "g1" =
        some g3 ∧ g3.isFinished = true ∧
      ∃ p, gameEndedPayloads (fireDisconnectTimer
          (handleDisconnect (twoPlayerState gPairing) "sb").1 "g1").2 = [p] ∧
        p.reason = "opponent-disconnected" ∧
        p.winner = (gPairing.playerAt (getOpponentIndex 1)).odId ∧
        p.loser = (gPairing.playerAt 1).odId) :=
  pairing_disconnect_grace (twoPlayerState gPairing) "sb" "B" "g1" gPairing 1
    (by decide) (by decide) (by decide) (by decide) (by decide) (by decide)
    (by decide) (by decide) (by decide)
